import Mathlib

/-!
Verification of the pdf-extractor backend.

Shallow embedding of the parts of the `MCS-Group/pdf-extractor` repository that
the verified claims are about:

* `src/dummy/dummy.py` — the dummy third-party commerce service (`add_order`,
  `verify_order`), modelled in namespace `Dummy`;
* `src/src/request_service.py` — the outbound HTTP client (`RequestService`),
  modelled in namespace `RequestService`;
* `src/src/api.py` — route handlers `login`, `extract_order`
  (with `_save_order_to_database`), `get_orders`, `verify_order`, and
  `get_company_config`, modelled in namespace `Api`;
* `src/src/auth/auth_bearer.py` — `JWTBearer.get_company_id` /
  `get_user_ms_code`, modelled in namespace `Auth`;
* `src/src/config.py` — the static per-company configuration map.

Python floats (prices, the random draw, the `0.1` threshold) are modelled as
rationals (`Rat`); Python ints as `Int`/`Nat`; `None`-able values as `Option`;
exceptions as `Except`.  `auth_handler.py` (`signJWT`/`decodeJWT`) is not
among the source files, so the token payload is modelled from the spec, which
says the token payload carries a user identifier.
-/

/-- An HTTP error raised with `HTTPException(status_code=..., detail=...)`. -/
structure HTTPError where
  status_code : Nat
  detail : String
deriving Repr, DecidableEq

namespace Dummy

/-- One entry of `products.json`, as read by `dummy.add_order`:
`product_info["MaterialID"]`, `product_info["ProductName"]`,
`product_info["CurrentPrice"]`. -/
structure ProductInfo where
  materialID : String
  productName : String
  currentPrice : Rat
deriving Repr, DecidableEq

/-- A submitted order line as `dummy.add_order` reads it:
`order.get("barcode")` (may be absent) and `order.get("quantity", 1)`. -/
structure OrderLine where
  barcode : Option String
  quantity : Option Int
deriving Repr, DecidableEq

/-- The `status` string attached to each result line by `dummy.add_order`. -/
inductive LineStatus where
  | added
  | notAvailable
  | notFound
deriving Repr, DecidableEq

/-- One line of the `result` list built by `dummy.add_order`. -/
structure ResultLine where
  material_id : Option String
  barcode : Option String
  name : Option String
  price : Option Rat
  quantity : Int
  status : LineStatus
deriving Repr, DecidableEq

/-- The product catalog: `product_data` loaded from `products.json`,
a dict keyed by barcode. -/
def Catalog := List (String × ProductInfo)

/-- `product_data.get(barcode, None)`: `None` when the barcode key is absent
(also when `order.get("barcode")` itself returned `None`). -/
def lookupProduct (catalog : Catalog) (barcode : Option String) : Option ProductInfo :=
  match barcode with
  | none => none
  | some b => (catalog.find? (fun p => p.1 = b)).map Prod.snd

/-- The body of the per-line loop of `dummy.add_order`: a matched barcode
yields status `"added"`, demoted to `"not available"` when the random draw is
below `0.1`; an unmatched barcode falls through to the `"not found"` line. -/
def processLine (catalog : Catalog) (line : OrderLine) (draw : Rat) : ResultLine :=
  let quantity := line.quantity.getD 1
  match lookupProduct catalog line.barcode with
  | some info =>
    { material_id := some info.materialID
      barcode := line.barcode
      name := some info.productName
      price := some info.currentPrice
      quantity := quantity
      status := if draw < 1/10 then LineStatus.notAvailable else LineStatus.added }
  | none =>
    { material_id := none
      barcode := line.barcode
      name := none
      price := none
      quantity := quantity
      status := LineStatus.notFound }

/-- The loop of `dummy.add_order`: one `random.random()` draw is consumed per
submitted line (`draws i` is the draw of the `i`-th iteration), and exactly one
result line is appended per submitted line. -/
def addOrderAux (catalog : Catalog) (draws : Nat → Rat) : Nat → List OrderLine → List ResultLine
  | _, [] => []
  | i, l :: ls => processLine catalog l (draws i) :: addOrderAux catalog draws (i + 1) ls

/-- The `result` list produced by `dummy.add_order` for the submitted `orders`. -/
def addOrderResult (catalog : Catalog) (lines : List OrderLine) (draws : Nat → Rat) :
    List ResultLine :=
  addOrderAux catalog draws 0 lines

/-- `sum(order.get("price", 0) * order.get("quantity", 0) for order in result
if order.get("status") == "added")` — the `total_price` of the response. -/
def totalPrice (result : List ResultLine) : Rat :=
  ((result.filter (fun r => r.status = LineStatus.added)).map
    (fun r => r.price.getD 0 * (r.quantity : Rat))).sum

/-- The `data` object of `dummy.add_order`'s success response. -/
structure AddOrderData where
  ms_code : String
  cus_id : String
  orders : List ResultLine
  order_id : Option String
  total_price : Rat
deriving Repr, DecidableEq

/-- The request body of `POST /order` on the dummy service. -/
structure OrderRequest where
  ms_code : String
  cus_id : String
  orders : List OrderLine
deriving Repr, DecidableEq

/-- `dummy.add_order` on its success path: builds the result lines, draws a
fresh uuid `orderId`, and computes `total_price` over the `"added"` lines. -/
def addOrder (catalog : Catalog) (req : OrderRequest) (draws : Nat → Rat)
    (orderId : String) : AddOrderData :=
  let result := addOrderResult catalog req.orders draws
  { ms_code := req.ms_code
    cus_id := req.cus_id
    orders := result
    order_id := some orderId
    total_price := totalPrice result }

end Dummy

namespace Auth

/-- A row of the `User` table, with the fields the handlers read:
`id`, `name`, `password`, the `company` relation (its id), and `ms_code`. -/
structure User where
  id : Nat
  name : String
  password : String
  company_id : Option Nat
  ms_code : Option String
deriving Repr, DecidableEq

/-- Modelled from the spec: `signJWT`/`decodeJWT` live in `auth_handler.py`,
which is not among the source files; the spec says the bearer-token payload
carries a user identifier, so a token is modelled as that payload.  The
source signs the decimal string `str(user.id)` and the consumers re-parse it
with `int(payload.get("user_id", ""))`; the embedding elides that identity
roundtrip and keeps the identifier a `Nat`. -/
structure Token where
  user_id : Nat
deriving Repr, DecidableEq

/-- Modelled from the spec: `signJWT(str(user.id))` issues a token whose
payload carries the user identifier. -/
def signJWT (userId : Nat) : Token := ⟨userId⟩

/-- Modelled from the spec: `decodeJWT` recovers the payload of a verified
token; `int(payload.get("user_id", ""))`. -/
def decodeJWT (t : Token) : Option Nat := some t.user_id

/-- `client.user.find_unique(where={'id': n})`. -/
def findUserById (users : List User) (n : Nat) : Option User :=
  users.find? (fun u => u.id = n)

/-- `JWTBearer.get_company_id`: decode the token, parse its `user_id` with
`int(...)` (a parse failure is swallowed by the `except` and yields `None`),
look the user up by id with the `company` relation included, and return the
user's company id when the user exists and has a company; `None` otherwise.
The source returns the decimal string `str(user.company.id)` and every caller
re-parses it with `int(...)` (or only truth-tests it); the embedding elides
that identity roundtrip and keeps the id a `Nat`. -/
def get_company_id (users : List User) (t : Token) : Option Nat :=
  match decodeJWT t with
  | none => none
  | some uid =>
    match findUserById users uid with
    | some u => u.company_id
    | none => none

/-- `JWTBearer.get_user_ms_code`: decode the token, look the user up by id,
and return `user.ms_code` when the user exists; `None` otherwise (parse and
lookup failures are swallowed by the `except`). -/
def get_user_ms_code (users : List User) (t : Token) : Option String :=
  match decodeJWT t with
  | none => none
  | some uid =>
    match findUserById users uid with
    | some u => u.ms_code
    | none => none

end Auth

namespace RequestService

/-- An `httpx.Response`, with its status code and (abstractly) its body. -/
structure Response where
  status_code : Nat
  body : String
deriving Repr, DecidableEq

/-- The error raised by `httpx.Response.raise_for_status` (an
`httpx.HTTPStatusError`), carrying the offending status code. -/
structure StatusError where
  status_code : Nat
deriving Repr, DecidableEq

/-- `httpx.Response.is_success`: a 2xx status code. -/
def isSuccess (code : Nat) : Bool := 200 ≤ code && code < 300

/-- `response.raise_for_status()`: raises `HTTPStatusError` for every
response whose status code is not a 2xx success code, and is a no-op
otherwise (httpx semantics). -/
def raise_for_status (r : Response) : Except StatusError Response :=
  if isSuccess r.status_code then Except.ok r else Except.error ⟨r.status_code⟩

/-- `RequestService.post_request`: POST the payload and return the response
after `raise_for_status`.  The response the network would deliver is the
argument `r`; the url, payload and headers do not affect the control flow. -/
def post_request (r : Response) : Except StatusError Response :=
  raise_for_status r

/-- `RequestService.get_request`: GET and return the response after
`raise_for_status`. -/
def get_request (r : Response) : Except StatusError Response :=
  raise_for_status r

end RequestService

namespace Api

open Auth RequestService

/-- The `"api-service"` sub-dict of a company configuration in
`src/src/config.py`. -/
structure ApiService where
  customers : String
  order : String
  verify : String
deriving Repr, DecidableEq

/-- One entry of the static `configs` map of `src/src/config.py`.  The
`"prompt"` and `"output_type"` entries only feed the external AI agent and are
elided; the `"api-service"` endpoints and `"api-key"` are kept. -/
structure CompanyConfig where
  apiService : ApiService
  apiKey : String
deriving Repr, DecidableEq

/-- The single entry of the `configs` map, keyed by company id `1`. -/
def config1 : CompanyConfig :=
  { apiService :=
      { customers := "http://localhost:8002/customers"
        order := "http://localhost:8002/order"
        verify := "http://localhost:8002/verify" }
    apiKey := "testkey123" }

/-- `configs.get(cid)`: the static company-configuration map. -/
def configsMap (cid : Nat) : Option CompanyConfig :=
  if cid = 1 then some config1 else none

/-- `client.user.find_unique(where={'name': username})`. -/
def findUserByName (users : List User) (username : String) : Option User :=
  users.find? (fun u => u.name = username)

/-- The `login` handler: look the user up by name; raise 401 when the user
does not exist or the stored password differs from the supplied one;
otherwise return `signJWT(str(user.id))`. -/
def login (users : List User) (username password : String) :
    Except HTTPError Token :=
  match findUserByName users username with
  | none => Except.error ⟨401, "Invalid username or password"⟩
  | some u =>
    if u.password ≠ password then
      Except.error ⟨401, "Invalid username or password"⟩
    else
      Except.ok (signJWT u.id)

/-- `get_company_config`: resolve the company id from the token
(`JWTBearer().get_company_id`), fetch `configs.get(int(company_id))` when a
company id was resolved, and raise 404 when no configuration was found. -/
def get_company_config (users : List User) (t : Token) :
    Except HTTPError CompanyConfig :=
  let config : Option CompanyConfig :=
    match get_company_id users t with
    | none => none
    | some cid => configsMap cid
  match config with
  | none => Except.error ⟨404, "Company configuration not found"⟩
  | some c => Except.ok c

/-- The `status` column of the `Order` table (`prisma.enums.OrderStatus`).
The Prisma schema is not among the source files; the enum is modelled with
the member the code uses (`COMPLETED`) and an initial default. -/
inductive OrderStatus where
  | PENDING
  | COMPLETED
deriving Repr, DecidableEq

/-- A row of the `Order` table, with the columns the handlers touch. -/
structure OrderRecord where
  id : Nat
  order_id : String
  company_id : Int
  user_id : String
  total_amount : Rat
  status : OrderStatus
  created_at : String
deriving Repr, DecidableEq

/-- A row of the `Item` table: `order_id` is the foreign key to
`OrderRecord.id`. -/
structure ItemRecord where
  id : Nat
  order_id : Nat
  product_name : String
  barcode : String
  quantity : Int
  price : Rat
deriving Repr, DecidableEq

/-- The relational store as the handlers see it: the `Order` and `Item`
tables, plus the auto-increment counters for their `id` columns. -/
structure Db where
  orders : List OrderRecord
  items : List ItemRecord
  nextOrderId : Nat
  nextItemId : Nat
deriving Repr, DecidableEq

/-- One line-item of a third-party order response as
`_save_order_to_database` reads it: `item.get("name", "")`,
`item.get("barcode", "")`, `int(item.get("quantity", 0) or 0)`,
`float(item.get("price", 0.0) or 0.0)`, `item.get("status", "none")`.
A key that is absent, or present with `None` (falsy), is `none` here. -/
structure RespItem where
  name : Option String
  barcode : Option String
  quantity : Option Int
  price : Option Rat
  status : Option String
deriving Repr, DecidableEq

/-- The `data` object of a third-party order response as the API reads it:
`resp.get("order_id", "")`, `resp.get("total_amount", 0.0)`,
`resp.get("orders", []) or []`. -/
structure Resp where
  order_id : Option String
  total_amount : Option Rat
  orders : Option (List RespItem)
deriving Repr, DecidableEq

/-- The item rows `_save_order_to_database` assembles: one `item_data` dict
per response line, kept only when `item.get("status", "none") == "added"`. -/
def itemsToCreate (orderRecordId : Nat) (ordersList : List RespItem) :
    List ItemRecord :=
  ((ordersList.filter (fun item => item.status.getD "none" = "added")).enum).map
    (fun p =>
      { id := p.1
        order_id := orderRecordId
        product_name := p.2.name.getD ""
        barcode := p.2.barcode.getD ""
        quantity := p.2.quantity.getD 0
        price := p.2.price.getD 0 })

/-- `_save_order_to_database`: create one order record carrying the
response's `order_id` and `total_amount` (with defaults), then create one
item record per response line whose `status` is `"added"`.  Item ids are the
auto-increment values `db.nextItemId + k`. -/
def save_order_to_database (db : Db) (company_id : Option Nat)
    (ms_code : Option String) (resp : Resp) : Db :=
  let orderRecord : OrderRecord :=
    { id := db.nextOrderId
      order_id := resp.order_id.getD ""
      company_id := (company_id.getD 0 : Nat)
      user_id := (ms_code.map toString).getD "0"
      total_amount := resp.total_amount.getD 0
      status := OrderStatus.PENDING
      created_at := "" }
  let ordersList := resp.orders.getD []
  let newItems :=
    (itemsToCreate orderRecord.id ordersList).map
      (fun it => { it with id := db.nextItemId + it.id })
  { orders := db.orders ++ [orderRecord]
    items := db.items ++ newItems
    nextOrderId := db.nextOrderId + 1
    nextItemId := db.nextItemId + newItems.length }

/-- One element of the `"items"` list of an order dict built by `get_orders`. -/
structure ItemOut where
  id : Nat
  name : String
  barcode : String
  quantity : Int
deriving Repr, DecidableEq

/-- One `order_dict` built by `get_orders`. -/
structure OrderOut where
  id : Nat
  order_id : String
  status : OrderStatus
  created_at : String
  items : List ItemOut
  total_amount : Rat
deriving Repr, DecidableEq

/-- The `items` relation included by `find_many(..., include={"items": True})`:
the item rows whose foreign key `order_id` is the order's primary key. -/
def orderItems (db : Db) (o : OrderRecord) : List ItemRecord :=
  db.items.filter (fun it => it.order_id = o.id)

/-- The `order_dict` built for one order row by `get_orders`: its items, and
`total_amount` recomputed as `total += item.quantity * item.price` over the
included items (the stored `total_amount` column is not read). -/
def orderOut (db : Db) (o : OrderRecord) : OrderOut :=
  let items := orderItems db o
  { id := o.id
    order_id := o.order_id
    status := o.status
    created_at := o.created_at
    items := items.map (fun it => ⟨it.id, it.product_name, it.barcode, it.quantity⟩)
    total_amount := items.foldl (fun total it => total + (it.quantity : Rat) * it.price) 0 }

/-- The `get_orders` handler: resolve the company id from the token, select
the order rows with `find_many(where={"company_id": int(company_id) if
company_id else 0})`, and build one `order_dict` per selected row.
`get_company_id` only ever returns `str(user.company.id)`, so when it is
non-`None` the `int(...)` conversion succeeds (the embedding keeps the id a
`Nat`, see `get_company_id`). -/
def get_orders (db : Db) (users : List User) (t : Token) : List OrderOut :=
  let cid : Int := ((get_company_id users t).getD 0 : Nat)
  (db.orders.filter (fun o => o.company_id = cid)).map (orderOut db)

/-- An exception escaping a handler's processing: an `HTTPException`, an
`httpx.HTTPStatusError` from `raise_for_status`, or a failure of the external
AI agent call. -/
inductive PyExn where
  | http (e : HTTPError)
  | httpxStatus (e : RequestService.StatusError)
  | agentError (msg : String)
deriving Repr, DecidableEq

/-- One extracted line-item returned by `PDFExtractor`:
`{name, barcode, quantity}`. -/
structure AgentItem where
  name : String
  barcode : String
  quantity : Int
deriving Repr, DecidableEq

/-- The environment of one `extract_order` request: the uploaded file's
content type, the user table, the caller's token, the outcome of the external
AI agent call, the HTTP response the third-party order endpoint would
deliver, and the `data` object parsed from that response. -/
structure ExtractEnv where
  contentType : Option String
  users : List User
  token : Token
  agentResult : Except String (List AgentItem)
  orderResponse : RequestService.Response
  respData : Resp
deriving Repr

/-- `SUPPORTED_FILE_TYPES`. -/
def SUPPORTED_FILE_TYPES : List String := ["application/pdf", "image/png"]

/-- `validate_file_type`: 400 unless the content type is PDF or PNG. -/
def validate_file_type (ct : String) : Except HTTPError Unit :=
  if SUPPORTED_FILE_TYPES.contains ct then Except.ok ()
  else Except.error ⟨400, "Only PDF and PNG files are supported"⟩

/-- The `try` block of `extract_order`: run the AI agent, resolve the company
configuration (its 404 is raised inside the block), check the order endpoint
(its 400 is raised inside the block), POST the orders to the third party,
raise 500 when the returned status is not 200, then persist via
`_save_order_to_database` and return the response's `data`.
`company_id`/`ms_code` are resolved by `JWTBearer` lookups; `get_company_id`
returns `str(user.company.id)`, so `int(company_id)` is its parsed value. -/
def extract_order_body (env : ExtractEnv) (db : Db) : Db × Except PyExn Resp :=
  match env.agentResult with
  | Except.error msg => (db, Except.error (PyExn.agentError msg))
  | Except.ok _orders =>
    match get_company_config env.users env.token with
    | Except.error e => (db, Except.error (PyExn.http e))
    | Except.ok config =>
      let orders_endpoint := config.apiService.order
      if orders_endpoint = "" then
        (db, Except.error (PyExn.http ⟨400, "Order endpoint not configured for this company"⟩))
      else
        match RequestService.post_request env.orderResponse with
        | Except.error e => (db, Except.error (PyExn.httpxStatus e))
        | Except.ok response =>
          if response.status_code ≠ 200 then
            (db, Except.error (PyExn.http ⟨500, "Failed to send orders to third party service"⟩))
          else
            let company_id := get_company_id env.users env.token
            let ms_code := get_user_ms_code env.users env.token
            (save_order_to_database db company_id ms_code env.respData,
             Except.ok env.respData)

/-- The `extract_order` handler: the two content-type checks run before the
`try` block (a missing or empty content type, then `validate_file_type`);
every exception raised inside the block is caught by `except Exception` and
re-raised as the generic 500. -/
def extract_order (env : ExtractEnv) (db : Db) : Db × Except HTTPError Resp :=
  match env.contentType with
  | none => (db, Except.error ⟨400, "File content type is missing"⟩)
  | some ct =>
    if ct = "" then (db, Except.error ⟨400, "File content type is missing"⟩)
    else
      match validate_file_type ct with
      | Except.error e => (db, Except.error e)
      | Except.ok _ =>
        match extract_order_body env db with
        | (db2, Except.ok resp) => (db2, Except.ok resp)
        | (db2, Except.error _) =>
          (db2, Except.error ⟨500, "An error occurred during order extraction"⟩)

/-- The environment of one `verify` request: the user table, the caller's
token, and the HTTP response the third-party verify endpoint would deliver
(whose parsed `data` is modelled abstractly as a string payload). -/
structure VerifyEnv where
  users : List User
  token : Token
  verifyResponse : RequestService.Response
  respData : String
deriving Repr, DecidableEq

/-- The `verify_order` handler: resolve the company configuration, check the
verify endpoint, POST the order id, raise 500 when the returned status is not
200, then mark every stored order with that `order_id` as `COMPLETED` and
return the response's `data`.  It has no `try` block, so exceptions
propagate as raised. -/
def verify_order (env : VerifyEnv) (orderId : String) (db : Db) :
    Db × Except PyExn String :=
  match get_company_config env.users env.token with
  | Except.error e => (db, Except.error (PyExn.http e))
  | Except.ok config =>
    let verify_endpoint := config.apiService.verify
    if verify_endpoint = "" then
      (db, Except.error (PyExn.http ⟨400, "Verify endpoint not configured for this company"⟩))
    else
      match RequestService.post_request env.verifyResponse with
      | Except.error e => (db, Except.error (PyExn.httpxStatus e))
      | Except.ok response =>
        if response.status_code ≠ 200 then
          (db, Except.error (PyExn.http ⟨500, "Failed to verify order extraction"⟩))
        else
          let db2 :=
            { db with
              orders := db.orders.map
                (fun o =>
                  if o.order_id = orderId then { o with status := OrderStatus.COMPLETED }
                  else o) }
          (db2, Except.ok env.respData)

end Api

/-! ## Helper lemmas -/

namespace Dummy

theorem addOrderAux_length (catalog : Catalog) (draws : Nat → Rat) :
    ∀ (start : Nat) (lines : List OrderLine),
      (addOrderAux catalog draws start lines).length = lines.length := by
  intro start lines
  induction lines generalizing start with
  | nil => rfl
  | cons l ls ih => simp [addOrderAux, ih]

theorem addOrderAux_get (catalog : Catalog) (draws : Nat → Rat) :
    ∀ (start : Nat) (lines : List OrderLine) (i : Nat) (h : i < lines.length)
      (h2 : i < (addOrderAux catalog draws start lines).length),
      (addOrderAux catalog draws start lines).get ⟨i, h2⟩ =
        processLine catalog (lines.get ⟨i, h⟩) (draws (start + i)) := by
  intro start lines
  induction lines generalizing start with
  | nil => intro i h _; exact absurd h (Nat.not_lt_zero i)
  | cons l ls ih =>
    intro i h h2
    cases i with
    | zero => simp [addOrderAux]
    | succ j =>
      have hj : j < ls.length := Nat.lt_of_succ_lt_succ h
      have hj2 : j < (addOrderAux catalog draws (start + 1) ls).length := by
        rw [addOrderAux_length]; exact hj
      have heq : start + (j + 1) = start + 1 + j := by omega
      simp only [addOrderAux, List.get_cons_succ]
      rw [heq]
      exact ih (start + 1) j hj hj2

theorem processLine_status_matched (catalog : Catalog) (line : OrderLine) (draw : Rat)
    (info : ProductInfo) (h : lookupProduct catalog line.barcode = some info) :
    (processLine catalog line draw).status =
      (if draw < 1/10 then LineStatus.notAvailable else LineStatus.added) := by
  simp [processLine, h]

theorem processLine_status_unmatched (catalog : Catalog) (line : OrderLine) (draw : Rat)
    (h : lookupProduct catalog line.barcode = none) :
    (processLine catalog line draw).status = LineStatus.notFound := by
  simp [processLine, h]

theorem totalPrice_eq_map_sum (result : List ResultLine) :
    totalPrice result =
      (result.map
        (fun r =>
          if r.status = LineStatus.added then r.price.getD 0 * (r.quantity : Rat)
          else 0)).sum := by
  induction result with
  | nil => rfl
  | cons r rs ih =>
    by_cases h : r.status = LineStatus.added
    · simp only [totalPrice, List.filter_cons, h] at ih ⊢
      simp [h, List.sum_cons, ih]
    · simp only [totalPrice, List.filter_cons, h] at ih ⊢
      simp [h, List.sum_cons, ih]

end Dummy

/-! ## Helper lemmas about the persistence helper -/

namespace Api

theorem itemsToCreate_length (oid : Nat) (L : List RespItem) :
    (itemsToCreate oid L).length =
      (L.filter (fun it => it.status.getD "none" = "added")).length := by
  simp [itemsToCreate, List.enum_length]

theorem itemsToCreate_mem (oid : Nat) (L : List RespItem) :
    ∀ it ∈ itemsToCreate oid L,
      it.order_id = oid ∧
        ∃ src ∈ L, src.status.getD "none" = "added" ∧
          it.product_name = src.name.getD "" ∧ it.barcode = src.barcode.getD "" ∧
          it.quantity = src.quantity.getD 0 ∧ it.price = src.price.getD 0 := by
  intro it hit
  unfold itemsToCreate at hit
  rcases List.mem_map.mp hit with ⟨p, hp, rfl⟩
  have h2 := List.mem_enum_iff_getElem?.mp hp
  have hmem := List.getElem?_mem h2
  rcases List.mem_filter.mp hmem with ⟨hsrc, hstat⟩
  exact ⟨rfl, p.2, hsrc, by simpa using hstat, rfl, rfl, rfl, rfl⟩

theorem map_toString_getD (ms_code : Option String) :
    (ms_code.map toString).getD "0" = ms_code.getD "0" := by
  cases ms_code <;> rfl

end Api

namespace Auth

/-- With pairwise-distinct user names, two user rows with the same name are
the same row (the `name` column is the `find_unique` key of `login`). -/
theorem eq_of_name_eq {users : List User}
    (huniq : users.Pairwise (fun a b => a.name ≠ b.name))
    {u v : User} (hu : u ∈ users) (hv : v ∈ users) (h : u.name = v.name) : u = v := by
  by_contra hne
  exact List.Pairwise.forall (fun x y hxy => hxy.symm) huniq hu hv hne h

/-- With pairwise-distinct user ids, two user rows with the same id are the
same row (the `id` column is the `find_unique` key of the `JWTBearer`
lookups). -/
theorem eq_of_id_eq {users : List User}
    (huniq : users.Pairwise (fun a b => a.id ≠ b.id))
    {u v : User} (hu : u ∈ users) (hv : v ∈ users) (h : u.id = v.id) : u = v := by
  by_contra hne
  exact List.Pairwise.forall (fun x y hxy => hxy.symm) huniq hu hv hne h

/-- With pairwise-distinct user ids, `find_unique(where={'id': u.id})`
returns exactly the row `u`. -/
theorem findUserById_eq_of_mem {users : List User} {u : User}
    (huniq : users.Pairwise (fun a b => a.id ≠ b.id)) (hu : u ∈ users) :
    findUserById users u.id = some u := by
  have hsome : (users.find? (fun v => v.id = u.id)).isSome := by
    rw [List.find?_isSome]
    exact ⟨u, hu, by simp⟩
  rcases Option.isSome_iff_exists.mp hsome with ⟨v, hv⟩
  have hvid : v.id = u.id := by simpa using List.find?_some hv
  have hvmem : v ∈ users := List.mem_of_find?_eq_some hv
  have hveq : v = u := eq_of_id_eq huniq hvmem hu hvid
  rw [findUserById, hv, hveq]

/-- Characterization of `get_company_id` for a token whose payload carries
the id of the user row `u`. -/
theorem get_company_id_eq {users : List User} {t : Token} {u : User}
    (huniq : users.Pairwise (fun a b => a.id ≠ b.id)) (hu : u ∈ users)
    (hparse : t.user_id = u.id) :
    get_company_id users t = u.company_id := by
  unfold get_company_id decodeJWT
  simp only [hparse, findUserById_eq_of_mem huniq hu]

/-- Characterization of `get_user_ms_code` for a token whose payload carries
the id of the user row `u`. -/
theorem get_user_ms_code_eq {users : List User} {t : Token} {u : User}
    (huniq : users.Pairwise (fun a b => a.id ≠ b.id)) (hu : u ∈ users)
    (hparse : t.user_id = u.id) :
    get_user_ms_code users t = u.ms_code := by
  unfold get_user_ms_code decodeJWT
  simp only [hparse, findUserById_eq_of_mem huniq hu]

end Auth

namespace RequestService

/-- A response `post_request` returns (rather than raises) is the delivered
response itself, and its status is a 2xx success status. -/
theorem post_request_ok_eq {r r2 : Response}
    (h : post_request r = Except.ok r2) :
    r2 = r ∧ isSuccess r.status_code = true := by
  unfold post_request raise_for_status at h
  by_cases hb : isSuccess r.status_code = true
  · rw [if_pos hb] at h
    exact ⟨(Except.ok.inj h).symm, hb⟩
  · rw [if_neg hb] at h
    exact absurd h (by simp)

end RequestService

namespace Api

/-- The only error `get_company_config` raises is the 404. -/
theorem get_company_config_error_eq {users : List Auth.User} {t : Auth.Token}
    {e : HTTPError} (h : get_company_config users t = Except.error e) :
    e = ⟨404, "Company configuration not found"⟩ := by
  unfold get_company_config at h
  rcases hcid : Auth.get_company_id users t with _ | cid
  · rw [hcid] at h
    exact (Except.error.inj h).symm
  · rw [hcid] at h
    simp only [] at h
    rcases hcfg : configsMap cid with _ | config
    · rw [hcfg] at h
      exact (Except.error.inj h).symm
    · rw [hcfg] at h
      exact absurd h (by simp)

end Api

/-! ## Claims -/

/-- C2: in the dummy service's order placement, exactly one result line is
produced per submitted line, in order (the `i`-th result line is
`processLine` of the `i`-th submitted line with the `i`-th draw); a line
whose barcode is in the catalog receives status `"added"`, except that with
the random draw below `0.1` it receives `"not available"`; a line whose
barcode is not in the catalog receives `"not found"` (so it is never marked
`"not available"`). -/
theorem c2_dummy_line_statuses (catalog : Dummy.Catalog) (lines : List Dummy.OrderLine)
    (draws : Nat → Rat) (i : Nat) (h : i < lines.length)
    (h2 : i < (Dummy.addOrderResult catalog lines draws).length) :
    (Dummy.addOrderResult catalog lines draws).length = lines.length ∧
    (Dummy.addOrderResult catalog lines draws).get ⟨i, h2⟩ =
      Dummy.processLine catalog (lines.get ⟨i, h⟩) (draws i) ∧
    ((Dummy.lookupProduct catalog (lines.get ⟨i, h⟩).barcode).isSome →
      ((Dummy.addOrderResult catalog lines draws).get ⟨i, h2⟩).status =
        (if draws i < 1/10 then Dummy.LineStatus.notAvailable
         else Dummy.LineStatus.added)) ∧
    (Dummy.lookupProduct catalog (lines.get ⟨i, h⟩).barcode = none →
      ((Dummy.addOrderResult catalog lines draws).get ⟨i, h2⟩).status =
        Dummy.LineStatus.notFound) := by
  have h2x : i < (Dummy.addOrderAux catalog draws 0 lines).length := h2
  have hlen : (Dummy.addOrderResult catalog lines draws).length = lines.length :=
    Dummy.addOrderAux_length catalog draws 0 lines
  have hget := Dummy.addOrderAux_get catalog draws 0 lines i h h2x
  simp only [Nat.zero_add] at hget
  have hres : (Dummy.addOrderResult catalog lines draws).get ⟨i, h2⟩ =
      Dummy.processLine catalog (lines.get ⟨i, h⟩) (draws i) := hget
  refine ⟨hlen, hres, ?_, ?_⟩
  · intro hsome
    rcases Option.isSome_iff_exists.mp hsome with ⟨info, hinfo⟩
    rw [hres]
    exact Dummy.processLine_status_matched catalog _ (draws i) info hinfo
  · intro hnone
    rw [hres]
    exact Dummy.processLine_status_unmatched catalog _ (draws i) hnone

/-- Witness for C2 at a concrete catalog and two submitted lines, the first
matched and the second unmatched. -/
theorem c2_dummy_line_statuses_witness :
    let catalog : Dummy.Catalog := [("1234567890123", ⟨"M001", "Product A", 10⟩)]
    let lines : List Dummy.OrderLine :=
      [⟨some "1234567890123", some 2⟩, ⟨some "9876543210987", some 1⟩]
    let draws : Nat → Rat := fun _ => 1/2
    (Dummy.addOrderResult catalog lines draws).length = lines.length ∧
    (Dummy.addOrderResult catalog lines draws).get ⟨0, by decide⟩ =
      Dummy.processLine catalog (lines.get ⟨0, by decide⟩) (draws 0) ∧
    ((Dummy.lookupProduct catalog ((lines.get ⟨0, by decide⟩)).barcode).isSome →
      ((Dummy.addOrderResult catalog lines draws).get ⟨0, by decide⟩).status =
        (if draws 0 < 1/10 then Dummy.LineStatus.notAvailable
         else Dummy.LineStatus.added)) ∧
    (Dummy.lookupProduct catalog ((lines.get ⟨0, by decide⟩)).barcode = none →
      ((Dummy.addOrderResult catalog lines draws).get ⟨0, by decide⟩).status =
        Dummy.LineStatus.notFound) :=
  c2_dummy_line_statuses _ _ _ 0 (by decide) (by decide)

/-- C3: the `total_price` computed by the dummy service's order placement
equals the sum, over exactly the result lines whose status is `"added"`, of
price times quantity: each result line contributes `price * quantity` when
its status is `"added"` and `0` otherwise. -/
theorem c3_total_price_added_only (catalog : Dummy.Catalog) (req : Dummy.OrderRequest)
    (draws : Nat → Rat) (orderId : String) :
    (Dummy.addOrder catalog req draws orderId).total_price =
      ((Dummy.addOrder catalog req draws orderId).orders.map
        (fun r =>
          if r.status = Dummy.LineStatus.added then r.price.getD 0 * (r.quantity : Rat)
          else 0)).sum :=
  Dummy.totalPrice_eq_map_sum _

/-- C1 counterexample: `_save_order_to_database` does NOT create one item
record for every line-item of the response's `orders` list — a response with
one line-item whose status is `"not found"` produces zero item records. -/
theorem c1_counterexample :
    ¬ ((Api.save_order_to_database ⟨[], [], 0, 0⟩ (some 1) (some "M1")
          ⟨some "ord-1", none,
            some [⟨some "Product X", some "9876543210987", some 1, none,
              some "not found"⟩]⟩).items.length =
        (((⟨some "ord-1", none,
            some [⟨some "Product X", some "9876543210987", some 1, none,
              some "not found"⟩]⟩ : Api.Resp)).orders.getD []).length) := by
  decide

/-- C1 (amended): `_save_order_to_database` creates exactly one order record,
carrying the response's `order_id` and the value of the response's
`total_amount` field (default `0` when absent), and one item record for every
line-item of the response's `orders` list whose `status` is `"added"` — each
new item record points at the new order record and copies that line-item's
name, barcode, quantity and price (with defaults). -/
theorem c1_save_order_persists_added_items (db : Api.Db) (company_id : Option Nat)
    (ms_code : Option String) (resp : Api.Resp) :
    (Api.save_order_to_database db company_id ms_code resp).orders =
      db.orders ++
        [{ id := db.nextOrderId
           order_id := resp.order_id.getD ""
           company_id := (company_id.getD 0 : Nat)
           user_id := ms_code.getD "0"
           total_amount := resp.total_amount.getD 0
           status := Api.OrderStatus.PENDING
           created_at := "" }] ∧
    (Api.save_order_to_database db company_id ms_code resp).items.length =
      db.items.length +
        ((resp.orders.getD []).filter
          (fun it => it.status.getD "none" = "added")).length ∧
    ∀ it ∈ (Api.save_order_to_database db company_id ms_code resp).items,
      it ∈ db.items ∨
        (it.order_id = db.nextOrderId ∧
          ∃ src ∈ resp.orders.getD [], src.status.getD "none" = "added" ∧
            it.product_name = src.name.getD "" ∧ it.barcode = src.barcode.getD "" ∧
            it.quantity = src.quantity.getD 0 ∧ it.price = src.price.getD 0) := by
  refine ⟨?_, ?_, ?_⟩
  · simp [Api.save_order_to_database, Api.map_toString_getD]
  · simp [Api.save_order_to_database, Api.itemsToCreate_length]
  · intro it hit
    simp only [Api.save_order_to_database, List.mem_append] at hit
    rcases hit with hold | hnew
    · exact Or.inl hold
    · rcases List.mem_map.mp hnew with ⟨it0, hit0, rfl⟩
      rcases Api.itemsToCreate_mem db.nextOrderId (resp.orders.getD []) it0 hit0 with
        ⟨hoid, src, hsrc, hstat, hn, hb, hq, hp⟩
      exact Or.inr ⟨hoid, src, hsrc, hstat, hn, hb, hq, hp⟩

/-- Witness for C1's amended theorem at a concrete database and response
(one `"added"` line and one `"not found"` line: exactly one item record). -/
theorem c1_save_order_persists_added_items_witness :
    (Api.save_order_to_database ⟨[], [], 0, 0⟩ (some 1) (some "M1")
        ⟨some "ord-1", some 20,
          some [⟨some "Product A", some "1234567890123", some 2, some 10,
              some "added"⟩,
            ⟨some "Product X", some "9876543210987", some 1, none,
              some "not found"⟩]⟩).items.length =
      ([] : List Api.ItemRecord).length +
        (((some [⟨some "Product A", some "1234567890123", some 2, some 10,
              some "added"⟩,
            ⟨some "Product X", some "9876543210987", some 1, none,
              some "not found"⟩] : Option (List Api.RespItem)).getD []).filter
          (fun it => it.status.getD "none" = "added")).length :=
  (c1_save_order_persists_added_items ⟨[], [], 0, 0⟩ (some 1) (some "M1") _).2.1

/-- C4: with pairwise-distinct user names, the `login` operation raises HTTP
401 if and only if no user record with the given username and the supplied
password exists (that is: the user is absent, or present with a different
stored password); otherwise it issues the bearer token signed over that
user's id and returns it. -/
theorem c4_login_401_iff (users : List Auth.User) (username password : String)
    (huniq : users.Pairwise (fun a b => a.name ≠ b.name)) :
    (Api.login users username password =
        Except.error ⟨401, "Invalid username or password"⟩ ↔
      ¬ ∃ u ∈ users, u.name = username ∧ u.password = password) ∧
    (∀ u ∈ users, u.name = username → u.password = password →
      Api.login users username password =
        Except.ok (Auth.signJWT u.id)) := by
  rcases hfind : Api.findUserByName users username with _ | u
  · have hnone : ∀ v ∈ users, v.name ≠ username := by
      intro v hv
      have := List.find?_eq_none.mp hfind v hv
      simpa using this
    refine ⟨⟨fun _ => ?_, fun _ => ?_⟩, fun v hv hvname _ => ?_⟩
    · rintro ⟨v, hv, hvname, -⟩
      exact hnone v hv hvname
    · simp [Api.login, hfind]
    · exact absurd hvname (hnone v hv)
  · have hfind2 : users.find? (fun v => decide (v.name = username)) = some u := hfind
    have huname : u.name = username := by
      simpa using List.find?_some hfind2
    have humem : u ∈ users := List.mem_of_find?_eq_some hfind2
    by_cases hpw : u.password = password
    · have hlogin : Api.login users username password =
          Except.ok (Auth.signJWT u.id) := by
        simp [Api.login, hfind, hpw]
      refine ⟨⟨fun h => ?_, fun h => ?_⟩, fun v hv hvname hvpw => ?_⟩
      · rw [hlogin] at h
        exact absurd h (by simp)
      · exact absurd ⟨u, humem, huname, hpw⟩ h
      · have hveq : v = u :=
          Auth.eq_of_name_eq huniq hv humem (hvname.trans huname.symm)
        subst hveq
        exact hlogin
    · have hlogin : Api.login users username password =
          Except.error ⟨401, "Invalid username or password"⟩ := by
        simp [Api.login, hfind, hpw]
      refine ⟨⟨fun _ => ?_, fun _ => hlogin⟩, fun v hv hvname hvpw => ?_⟩
      · rintro ⟨v, hv, hvname, hvpw⟩
        have hveq : v = u :=
          Auth.eq_of_name_eq huniq hv humem (hvname.trans huname.symm)
        subst hveq
        exact hpw hvpw
      · have hveq : v = u :=
          Auth.eq_of_name_eq huniq hv humem (hvname.trans huname.symm)
        subst hveq
        exact absurd hvpw hpw

/-- Witness for C4 at a concrete one-user table: correct credentials are
accepted and the token carries the user's id. -/
theorem c4_login_401_iff_witness :
    Api.login [⟨7, "alice", "pw1", some 1, some "M1"⟩] "alice" "pw1" =
      Except.ok (Auth.signJWT 7) :=
  (c4_login_401_iff [⟨7, "alice", "pw1", some 1, some "M1"⟩] "alice" "pw1"
      (by decide)).2
    ⟨7, "alice", "pw1", some 1, some "M1"⟩ (by decide) rfl rfl

/-- C5: with pairwise-distinct user ids, for a verified bearer token whose
payload carries the id of the user row `u`, the company configuration is
resolved by the indirection token → user → user's company id → static map
entry: `get_company_config` raises HTTP 404 if and only if `u` has no
company or `u`'s company id has no entry in the configuration map, and
returns that company's map entry otherwise. -/
theorem c5_company_config_resolution (users : List Auth.User) (t : Auth.Token)
    (u : Auth.User) (huniq : users.Pairwise (fun a b => a.id ≠ b.id))
    (hu : u ∈ users) (hparse : t.user_id = u.id) :
    Auth.get_company_id users t = u.company_id ∧
    (Api.get_company_config users t =
        Except.error ⟨404, "Company configuration not found"⟩ ↔
      (u.company_id = none ∨
        ∃ cid, u.company_id = some cid ∧ Api.configsMap cid = none)) ∧
    (∀ cid config, u.company_id = some cid → Api.configsMap cid = some config →
      Api.get_company_config users t = Except.ok config) := by
  have hcid := Auth.get_company_id_eq huniq hu hparse
  refine ⟨hcid, ?_, ?_⟩
  · unfold Api.get_company_config
    rw [hcid]
    rcases u.company_id with _ | cid
    · simp
    · rcases hcfg : Api.configsMap cid with _ | config
      · simp [hcfg]
      · simp [hcfg]
  · intro cid config hcompany hcfg
    unfold Api.get_company_config
    rw [hcid, hcompany]
    simp [hcfg]

/-- Witness for C5 at a concrete one-user table whose user belongs to
company 1, the company of the static configuration map. -/
theorem c5_company_config_resolution_witness :
    Auth.get_company_id [⟨7, "alice", "pw1", some 1, some "M1"⟩] ⟨7⟩ =
      some 1 ∧
    (Api.get_company_config [⟨7, "alice", "pw1", some 1, some "M1"⟩] ⟨7⟩ =
        Except.error ⟨404, "Company configuration not found"⟩ ↔
      ((some 1 : Option Nat) = none ∨
        ∃ cid, (some 1 : Option Nat) = some cid ∧ Api.configsMap cid = none)) ∧
    (∀ cid config, (some 1 : Option Nat) = some cid →
      Api.configsMap cid = some config →
      Api.get_company_config [⟨7, "alice", "pw1", some 1, some "M1"⟩] ⟨7⟩ =
        Except.ok config) :=
  c5_company_config_resolution [⟨7, "alice", "pw1", some 1, some "M1"⟩] ⟨7⟩
    ⟨7, "alice", "pw1", some 1, some "M1"⟩ (by decide) (by decide) (by decide)

/-- C6: `post_request` and `get_request` raise an error if and only if the
HTTP response status is not 2xx, and return the response unchanged
otherwise. -/
theorem c6_request_client_raises_iff_non_2xx (r : RequestService.Response) :
    ((∃ e, RequestService.post_request r = Except.error e) ↔
      ¬ (200 ≤ r.status_code ∧ r.status_code < 300)) ∧
    (∀ r2, RequestService.post_request r = Except.ok r2 → r2 = r) ∧
    ((∃ e, RequestService.get_request r = Except.error e) ↔
      ¬ (200 ≤ r.status_code ∧ r.status_code < 300)) ∧
    (∀ r2, RequestService.get_request r = Except.ok r2 → r2 = r) := by
  have hiff : (RequestService.isSuccess r.status_code = true) ↔
      (200 ≤ r.status_code ∧ r.status_code < 300) := by
    simp [RequestService.isSuccess]
  by_cases h : 200 ≤ r.status_code ∧ r.status_code < 300
  · have hb : RequestService.isSuccess r.status_code = true := hiff.mpr h
    have hpost : RequestService.post_request r = Except.ok r := by
      simp [RequestService.post_request, RequestService.raise_for_status, hb]
    have hget : RequestService.get_request r = Except.ok r := by
      simp [RequestService.get_request, RequestService.raise_for_status, hb]
    refine ⟨⟨?_, ?_⟩, ?_, ⟨?_, ?_⟩, ?_⟩
    · rintro ⟨e, he⟩
      rw [hpost] at he
      exact absurd he (by simp)
    · intro hn
      exact absurd h hn
    · intro r2 h2
      rw [hpost] at h2
      exact (Except.ok.inj h2).symm
    · rintro ⟨e, he⟩
      rw [hget] at he
      exact absurd he (by simp)
    · intro hn
      exact absurd h hn
    · intro r2 h2
      rw [hget] at h2
      exact (Except.ok.inj h2).symm
  · have hb : ¬ (RequestService.isSuccess r.status_code = true) :=
      fun hx => h (hiff.mp hx)
    have hpost : RequestService.post_request r = Except.error ⟨r.status_code⟩ := by
      simp only [RequestService.post_request, RequestService.raise_for_status, if_neg hb]
    have hget : RequestService.get_request r = Except.error ⟨r.status_code⟩ := by
      simp only [RequestService.get_request, RequestService.raise_for_status, if_neg hb]
    refine ⟨⟨fun _ => h, fun _ => ⟨⟨r.status_code⟩, hpost⟩⟩, ?_,
      ⟨fun _ => h, fun _ => ⟨⟨r.status_code⟩, hget⟩⟩, ?_⟩
    · intro r2 h2
      rw [hpost] at h2
      exact absurd h2 (by simp)
    · intro r2 h2
      rw [hget] at h2
      exact absurd h2 (by simp)

/-- Witness for C6: a 404 response makes `post_request` raise, and a 200
response is returned unchanged. -/
theorem c6_request_client_raises_iff_non_2xx_witness :
    (∃ e, RequestService.post_request ⟨404, "not found"⟩ = Except.error e) ∧
    (⟨200, "ok"⟩ : RequestService.Response) = ⟨200, "ok"⟩ :=
  ⟨(c6_request_client_raises_iff_non_2xx ⟨404, "not found"⟩).1.mpr (by decide),
    (c6_request_client_raises_iff_non_2xx ⟨200, "ok"⟩).2.1 ⟨200, "ok"⟩ rfl⟩

/-- C7: for a token carrying the id of a user belonging to company `c`, the
order-listing operation returns exactly the stored orders whose `company_id`
is `c` (each rendered with all of its stored items by `orderOut`); every
order of company `c` is included, and every returned order comes from a
stored order of company `c`. -/
theorem c7_get_orders_company_scoped (db : Api.Db) (users : List Auth.User)
    (t : Auth.Token) (u : Auth.User) (c : Nat)
    (huniq : users.Pairwise (fun a b => a.id ≠ b.id)) (hu : u ∈ users)
    (hparse : t.user_id = u.id) (hc : u.company_id = some c) :
    Api.get_orders db users t =
      (db.orders.filter (fun o => o.company_id = (c : Int))).map (Api.orderOut db) ∧
    (∀ o ∈ db.orders, o.company_id = (c : Int) →
      Api.orderOut db o ∈ Api.get_orders db users t) ∧
    (∀ out ∈ Api.get_orders db users t,
      ∃ o ∈ db.orders, o.company_id = (c : Int) ∧ out = Api.orderOut db o ∧
        out.items = (Api.orderItems db o).map
          (fun it => ⟨it.id, it.product_name, it.barcode, it.quantity⟩)) := by
  have hcid : Auth.get_company_id users t = some c := by
    rw [Auth.get_company_id_eq huniq hu hparse, hc]
  have hmain : Api.get_orders db users t =
      (db.orders.filter (fun o => o.company_id = (c : Int))).map (Api.orderOut db) := by
    unfold Api.get_orders
    rw [hcid]
    rfl
  refine ⟨hmain, ?_, ?_⟩
  · intro o ho hco
    rw [hmain]
    exact List.mem_map_of_mem _ (List.mem_filter.mpr ⟨ho, by simp [hco]⟩)
  · intro out hout
    rw [hmain] at hout
    rcases List.mem_map.mp hout with ⟨o, ho, rfl⟩
    rcases List.mem_filter.mp ho with ⟨homem, hco⟩
    exact ⟨o, homem, by simpa using hco, rfl, rfl⟩

/-- Witness for C7 at a concrete database holding one order of company 1 and
one order of company 2, listed by a user of company 1. -/
theorem c7_get_orders_company_scoped_witness :
    Api.get_orders
        ⟨[⟨0, "A", 1, "M1", 10, Api.OrderStatus.PENDING, ""⟩,
          ⟨1, "B", 2, "M2", 20, Api.OrderStatus.PENDING, ""⟩], [], 2, 0⟩
        [⟨7, "alice", "pw1", some 1, some "M1"⟩] ⟨7⟩ =
      (([⟨0, "A", 1, "M1", 10, Api.OrderStatus.PENDING, ""⟩,
          ⟨1, "B", 2, "M2", 20, Api.OrderStatus.PENDING, ""⟩] :
            List Api.OrderRecord).filter
        (fun o => o.company_id = ((1 : Nat) : Int))).map
        (Api.orderOut
          ⟨[⟨0, "A", 1, "M1", 10, Api.OrderStatus.PENDING, ""⟩,
            ⟨1, "B", 2, "M2", 20, Api.OrderStatus.PENDING, ""⟩], [], 2, 0⟩) :=
  (c7_get_orders_company_scoped _ [⟨7, "alice", "pw1", some 1, some "M1"⟩] ⟨7⟩
    ⟨7, "alice", "pw1", some 1, some "M1"⟩ 1 (by decide) (by decide) rfl rfl).1

/-- The running `total += item.quantity * item.price` of `get_orders`, as a
sum over the items. -/
theorem foldl_total_eq_sum (items : List Api.ItemRecord) (a : Rat) :
    items.foldl (fun total it => total + (it.quantity : Rat) * it.price) a =
      a + (items.map (fun it => (it.quantity : Rat) * it.price)).sum := by
  induction items generalizing a with
  | nil => simp
  | cons it its ih =>
    simp only [List.foldl_cons, List.map_cons, List.sum_cons, ih, add_assoc]

/-- C9: the `total_amount` reported by the order-listing operation equals the
sum over the order's stored items of quantity times price, and the listing is
invariant under any change of the `total_amount` value stored on the order
records at creation time. -/
theorem c9_total_amount_recomputed (db : Api.Db) (users : List Auth.User)
    (t : Auth.Token) :
    (∀ out ∈ Api.get_orders db users t,
      out.total_amount =
        ((db.items.filter (fun it => it.order_id = out.id)).map
          (fun it => (it.quantity : Rat) * it.price)).sum) ∧
    (∀ f : Rat → Rat,
      Api.get_orders
        { db with
          orders := db.orders.map (fun o => { o with total_amount := f o.total_amount }) }
        users t = Api.get_orders db users t) := by
  constructor
  · intro out hout
    unfold Api.get_orders at hout
    rcases List.mem_map.mp hout with ⟨o, ho, rfl⟩
    show (Api.orderOut db o).total_amount = _
    unfold Api.orderOut Api.orderItems
    simp only [foldl_total_eq_sum, zero_add]
  · intro f
    obtain ⟨orders, items, no, ni⟩ := db
    simp only [Api.get_orders, List.filter_map, List.map_map]
    rfl

/-- C8: the HTTP-500 branches of `extract_order` and `verify_order` guarding
`response.status_code != 200` cannot fire when the third party answers 200:
`post_request` either raises (for any non-2xx status) or returns the response
unchanged with a 2xx status, so when the delivered response has status 200
(as the dummy service's does) neither handler produces the
"failed to send/verify" 500 error. -/
theorem c8_non200_branch_unreachable (r r2 : RequestService.Response)
    (env : Api.ExtractEnv) (venv : Api.VerifyEnv) (db : Api.Db) (orderId : String)
    (hok : RequestService.post_request r = Except.ok r2) :
    (r2 = r ∧ 200 ≤ r2.status_code ∧ r2.status_code < 300) ∧
    (env.orderResponse.status_code = 200 →
      (Api.extract_order_body env db).2 ≠
        Except.error
          (Api.PyExn.http ⟨500, "Failed to send orders to third party service"⟩)) ∧
    (venv.verifyResponse.status_code = 200 →
      (Api.verify_order venv orderId db).2 ≠
        Except.error
          (Api.PyExn.http ⟨500, "Failed to verify order extraction"⟩)) := by
  refine ⟨?_, ?_, ?_⟩
  · rcases RequestService.post_request_ok_eq hok with ⟨heq, hsucc⟩
    subst heq
    have hs : 200 ≤ r2.status_code ∧ r2.status_code < 300 := by
      simpa [RequestService.isSuccess] using hsucc
    exact ⟨rfl, hs⟩
  · intro h200 hbad
    unfold Api.extract_order_body at hbad
    rcases hagent : env.agentResult with msg | orders
    · simp [hagent] at hbad
    · rcases hcfg : Api.get_company_config env.users env.token with e | config
      · have he := Api.get_company_config_error_eq hcfg
        subst he
        simp [hagent, hcfg] at hbad
      · by_cases hend : config.apiService.order = ""
        · simp [hagent, hcfg, hend] at hbad
        · rcases hpost : RequestService.post_request env.orderResponse with e | resp
          · simp [hagent, hcfg, hend, hpost] at hbad
          · have hr200 : resp.status_code = 200 := by
              rw [(RequestService.post_request_ok_eq hpost).1, h200]
            simp [hagent, hcfg, hend, hpost, hr200] at hbad
  · intro h200 hbad
    unfold Api.verify_order at hbad
    rcases hcfg : Api.get_company_config venv.users venv.token with e | config
    · have he := Api.get_company_config_error_eq hcfg
      subst he
      simp [hcfg] at hbad
    · by_cases hend : config.apiService.verify = ""
      · simp [hcfg, hend] at hbad
      · rcases hpost : RequestService.post_request venv.verifyResponse with e | resp
        · simp [hcfg, hend, hpost] at hbad
        · have hr200 : resp.status_code = 200 := by
            rw [(RequestService.post_request_ok_eq hpost).1, h200]
          simp [hcfg, hend, hpost, hr200] at hbad

/-- Witness for C8: a 200 response is returned unchanged, and with a
200-answering third party `extract_order`'s body does not produce the
"failed to send" 500 error. -/
theorem c8_non200_branch_unreachable_witness :
    (Api.extract_order_body
        ⟨some "application/pdf", [⟨7, "alice", "pw1", some 1, some "M1"⟩], ⟨7⟩,
          Except.ok [], ⟨200, "body"⟩, ⟨some "ord-1", none, some []⟩⟩
        ⟨[], [], 0, 0⟩).2 ≠
      Except.error
        (Api.PyExn.http ⟨500, "Failed to send orders to third party service"⟩) :=
  (c8_non200_branch_unreachable ⟨200, "body"⟩ ⟨200, "body"⟩
      ⟨some "application/pdf", [⟨7, "alice", "pw1", some 1, some "M1"⟩], ⟨7⟩,
        Except.ok [], ⟨200, "body"⟩, ⟨some "ord-1", none, some []⟩⟩
      ⟨[⟨7, "alice", "pw1", some 1, some "M1"⟩], ⟨7⟩, ⟨200, "ok"⟩, "data"⟩
      ⟨[], [], 0, 0⟩ "ord-1" rfl).2.1 rfl

/-- Witness for C9 at a concrete database with one order holding two items
and a stale stored `total_amount` of 999: the reported total is recomputed
from the items. -/
theorem c9_total_amount_recomputed_witness :
    (Api.orderOut
        ⟨[⟨0, "A", 1, "M1", 999, Api.OrderStatus.PENDING, ""⟩],
          [⟨0, 0, "Product A", "111", 2, 10⟩, ⟨1, 0, "Product B", "222", 3, 5⟩],
          1, 2⟩
        ⟨0, "A", 1, "M1", 999, Api.OrderStatus.PENDING, ""⟩).total_amount =
      ((([⟨0, 0, "Product A", "111", 2, 10⟩,
          ⟨1, 0, "Product B", "222", 3, 5⟩] : List Api.ItemRecord).filter
        (fun it =>
          it.order_id =
            (Api.orderOut
              ⟨[⟨0, "A", 1, "M1", 999, Api.OrderStatus.PENDING, ""⟩],
                [⟨0, 0, "Product A", "111", 2, 10⟩,
                  ⟨1, 0, "Product B", "222", 3, 5⟩],
                1, 2⟩
              ⟨0, "A", 1, "M1", 999, Api.OrderStatus.PENDING, ""⟩).id)).map
        (fun it => (it.quantity : Rat) * it.price)).sum :=
  (c9_total_amount_recomputed
    ⟨[⟨0, "A", 1, "M1", 999, Api.OrderStatus.PENDING, ""⟩],
      [⟨0, 0, "Product A", "111", 2, 10⟩, ⟨1, 0, "Product B", "222", 3, 5⟩],
      1, 2⟩
    [⟨7, "alice", "pw1", some 1, some "M1"⟩] ⟨7⟩).1
    (Api.orderOut
      ⟨[⟨0, "A", 1, "M1", 999, Api.OrderStatus.PENDING, ""⟩],
        [⟨0, 0, "Product A", "111", 2, 10⟩, ⟨1, 0, "Product B", "222", 3, 5⟩],
        1, 2⟩
      ⟨0, "A", 1, "M1", 999, Api.OrderStatus.PENDING, ""⟩)
    (List.mem_singleton_self _)

/-- C10: in `extract_order`, only the content-type checks performed before
the `try` block can reach the client with status 400 (a missing or empty
content type, or an unsupported one); once the content type is supported,
every exception raised inside the processing block — including the HTTP 400
the block itself raises for a missing order endpoint — is caught and
re-raised as the generic HTTP 500 "An error occurred during order
extraction". -/
theorem c10_extract_order_generic_500 (env : Api.ExtractEnv) (db : Api.Db) :
    (env.contentType = none →
      Api.extract_order env db =
        (db, Except.error ⟨400, "File content type is missing"⟩)) ∧
    (env.contentType = some "" →
      Api.extract_order env db =
        (db, Except.error ⟨400, "File content type is missing"⟩)) ∧
    (∀ ct, env.contentType = some ct → ct ≠ "" →
      ct ∉ Api.SUPPORTED_FILE_TYPES →
      Api.extract_order env db =
        (db, Except.error ⟨400, "Only PDF and PNG files are supported"⟩)) ∧
    (∀ ct, env.contentType = some ct → ct ∈ Api.SUPPORTED_FILE_TYPES →
      ∀ e, (Api.extract_order env db).2 = Except.error e →
        e = ⟨500, "An error occurred during order extraction"⟩) := by
  refine ⟨?_, ?_, ?_, ?_⟩
  · intro hct
    unfold Api.extract_order
    rw [hct]
  · intro hct
    unfold Api.extract_order
    rw [hct]
    simp
  · intro ct hct hne hmem
    have hcontains : Api.SUPPORTED_FILE_TYPES.contains ct = false := by
      rcases hb : Api.SUPPORTED_FILE_TYPES.contains ct
      · rfl
      · exact absurd (List.mem_of_elem_eq_true hb) hmem
    unfold Api.extract_order Api.validate_file_type
    rw [hct]
    simp only [if_neg hne, hcontains]
    simp
  · intro ct hct hmem e he
    have hcontains : Api.SUPPORTED_FILE_TYPES.contains ct = true :=
      List.elem_eq_true_of_mem hmem
    have hne : ¬ (ct = "") := by
      rintro rfl
      exact absurd hmem (by decide)
    unfold Api.extract_order Api.validate_file_type at he
    rw [hct] at he
    simp only [if_neg hne, hcontains, if_true] at he
    rcases hbody : Api.extract_order_body env db with ⟨db2, res⟩
    rw [hbody] at he
    rcases res with e2 | resp
    · simp at he
      exact he.symm
    · simp at he

/-- Witness for C10: with a supported content type and a failing AI agent
call, the client sees exactly the generic 500. -/
theorem c10_extract_order_generic_500_witness :
    (⟨500, "An error occurred during order extraction"⟩ : HTTPError) =
      ⟨500, "An error occurred during order extraction"⟩ :=
  (c10_extract_order_generic_500
      ⟨some "application/pdf", [⟨7, "alice", "pw1", some 1, some "M1"⟩], ⟨7⟩,
        Except.error "agent unavailable", ⟨200, "body"⟩, ⟨some "ord-1", none, some []⟩⟩
      ⟨[], [], 0, 0⟩).2.2.2
    "application/pdf" rfl (by decide)
    ⟨500, "An error occurred during order extraction"⟩ rfl
